import Mathlib

/-!
Shallow embedding of the darwin-project transcription/upload code
(`src/genspark-integration/transcription_service.py`,
`src/genspark-integration/ai_drive_manager.py`, `src/backend/main.py`).

Python dictionaries are modelled as association lists over a small value
type `PyVal`; Python exceptions as `PyExc`; the local filesystem as an
explicit `FS` state threaded through the functions that touch disk.
The opaque vendor SDK (`genspark_sdk.GenSparkSDK`) never has a real call
in the source (all call sites are commented out); its only observable
behaviour is that entering the session or a stage body may raise, which
is modelled by `Option PyExc` fault parameters fed to the `try/except`
structure that the source wraps around each body.
-/

namespace Darwin

/-- A single apostrophe character, as produced by Python `str()` of a
`KeyError` (which renders the missing key in quotes). -/
def sq : String := "\x27"

/-- Python exception values that the embedded code can raise.  The three
OSError variants carry the offending path. -/
inductive PyExc where
  | keyError : String → PyExc
  | valueError : String → PyExc
  | fileNotFoundError : String → PyExc
  | fileExistsError : String → PyExc
  | isADirectoryError : String → PyExc
  | other : String → PyExc
deriving DecidableEq, Repr

/-- Python `str(e)` on the exceptions above: `str(KeyError('k'))` renders
the key in quotes, OSErrors render errno, message and quoted path, the
others render their message. -/
def PyExc.toStr : PyExc → String
  | .keyError k => sq ++ k ++ sq
  | .valueError m => m
  | .fileNotFoundError p => "[Errno 2] No such file or directory: " ++ sq ++ p ++ sq
  | .fileExistsError p => "[Errno 17] File exists: " ++ sq ++ p ++ sq
  | .isADirectoryError p => "[Errno 21] Is a directory: " ++ sq ++ p ++ sq
  | .other m => m

/-- Python values stored in the result dictionaries of the source.
Floating-point literals (only `0.85` occurs, never computed with) are
kept as their literal text in `pnum`. -/
inductive PyVal where
  | pstr : String → PyVal
  | pint : Int → PyVal
  | pbool : Bool → PyVal
  | pnum : String → PyVal
  | pnone : PyVal
  | plist : List PyVal → PyVal
  | pdict : List (String × PyVal) → PyVal

/-- A Python dictionary: association list in insertion order. -/
def PyDict := List (String × PyVal)

/-- Python `d[k]`: the value at key `k`, or a raised `KeyError`. -/
def dictGet (d : PyDict) (k : String) : Except PyExc PyVal :=
  match List.lookup k d with
  | some v => Except.ok v
  | none => Except.error (PyExc.keyError k)

/-- Python `f"{v}"` on the values that the source interpolates.  In the
source every interpolated dictionary value is a `str`; list/dict
renderings are therefore never reached and abbreviated. -/
def pyFormat : PyVal → String
  | .pstr s => s
  | .pint n => toString n
  | .pbool b => if b then "True" else "False"
  | .pnum lit => lit
  | .pnone => "None"
  | .plist _ => "[list]"
  | .pdict _ => "[dict]"

/-- The `except Exception as e: return {"status": "error", "message": prefix + str(e)}`
result dictionary shared by every handler in the source. -/
def errDict (msg : String) : PyDict :=
  [("status", PyVal.pstr "error"), ("message", PyVal.pstr msg)]

/-- Python `try: body except Exception as e: return errDict (prefixMsg + str(e))`. -/
def pyTry (body : Except PyExc PyDict) (prefixMsg : String) : PyDict :=
  match body with
  | .ok d => d
  | .error e => errDict (prefixMsg ++ PyExc.toStr e)

/-- Lift a fault oracle into the body of a `try` block: `some e` means the
opaque vendor interaction inside the block raises `e`. -/
def faultOr (fault : Option PyExc) (v : PyDict) : Except PyExc PyDict :=
  match fault with
  | some e => Except.error e
  | none => Except.ok v

/-- Local filesystem state: a set of directories and a map from file path
to contents.  `os.makedirs(..., exist_ok=True)` is abstracted to inserting
the directory itself (intermediate directories are not tracked). -/
structure FS where
  dirs : List String
  files : List (String × String)
deriving DecidableEq, Repr

/-- Python `os.path.exists`: true for both files and directories. -/
def FS.existsPath (fs : FS) (p : String) : Bool :=
  fs.dirs.contains p || (List.lookup p fs.files).isSome

/-- Python `os.makedirs(d, exist_ok=True)`: raises `FileNotFoundError`
for the empty path, raises `FileExistsError` when `d` exists as a
regular file (with `exist_ok=True` only an existing *directory* is
tolerated), is a no-op on an existing directory, and otherwise creates
the directory (intermediate directories abstracted). -/
def FS.makedirs (fs : FS) (d : String) : Except PyExc FS :=
  if d = "" then Except.error (PyExc.fileNotFoundError "")
  else if (List.lookup d fs.files).isSome then Except.error (PyExc.fileExistsError d)
  else if fs.dirs.contains d then Except.ok fs
  else Except.ok ⟨d :: fs.dirs, fs.files⟩

/-- Place file contents `c` at path `p`, replacing any previous
contents. -/
def FS.setFile (fs : FS) (p c : String) : FS :=
  ⟨fs.dirs, (p, c) :: fs.files.filter (fun q => q.1 != p)⟩

/-- Python `open(p, "w")`: raises `IsADirectoryError` when `p` is an
existing directory, otherwise truncates/creates the file at `p`.  (The
parent directory of the only `open` call in the source has just been
created by `makedirs`, so a missing parent is not modelled.) -/
def FS.openWrite (fs : FS) (p : String) : Except PyExc FS :=
  if fs.dirs.contains p then Except.error (PyExc.isADirectoryError p)
  else Except.ok (fs.setFile p "")

/-- Python `os.path.getsize` in UTF-8 bytes (0 when absent; the source
only calls it on a path it has just written). -/
def FS.fileSize (fs : FS) (p : String) : Int :=
  match List.lookup p fs.files with
  | some c => (c.utf8ByteSize : Int)
  | none => 0

/-! Path helpers: `os.path.basename`, `pathlib.Path(...).stem`,
`os.path.join` (POSIX semantics, as the source runs on Linux). -/

/-- Characters after the last `/` (empty when the string ends in `/`),
i.e. `os.path.basename` on the character list. -/
def afterLastSlash (l : List Char) : List Char :=
  (l.reverse.takeWhile (fun c => c != '/')).reverse

/-- Python `os.path.basename`. -/
def osBasename (s : String) : String :=
  String.mk (afterLastSlash s.data)

/-- Drop trailing `/` characters (pathlib ignores trailing slashes). -/
def rstripSlashes (l : List Char) : List Char :=
  (l.reverse.dropWhile (fun c => c == '/')).reverse

/-- `pathlib.PurePath(...).name` on the character list. -/
def pathNameL (l : List Char) : List Char :=
  afterLastSlash (rstripSlashes l)

/-- Index of the last `.` in the list, CPython `str.rfind('.')` style. -/
def rfindDot (l : List Char) : Option Nat :=
  l.enum.foldl (fun acc p => if p.2 = '.' then some p.1 else acc) none

/-- `pathlib.PurePath(...).stem` on the character list: the name with its
last suffix removed, where a suffix needs a dot that is neither the first
nor the last character of the name (CPython's rule). -/
def pathStemL (l : List Char) : List Char :=
  let name := pathNameL l
  match rfindDot name with
  | some i => if 0 < i ∧ i + 1 < name.length then name.take i else name
  | none => name

/-- `pathlib.Path(s).stem`. -/
def pathStem (s : String) : String :=
  String.mk (pathStemL s.data)

/-- POSIX `os.path.join a b`: `b` when `b` is absolute, otherwise `a`
and `b` glued with exactly one separator. -/
def osPathJoin (a b : String) : String :=
  if b.data.head? = some '/' then b
  else if a = "" then b
  else if a.data.getLast? = some '/' then a ++ b
  else a ++ "/" ++ b

/-- Python `a or b` on optional strings, with Python truthiness: `None`
and the empty string fall through to `b`. -/
def pyOr (a b : Option String) : Option String :=
  match a with
  | some s => if s = "" then b else some s
  | none => b

/-- Shared error message of both constructors. -/
def apiKeyError : String := "GENSPARK_API_KEY environment variable is required"

/-- `TranscriptionService` instance state after `__init__`. -/
structure TranscriptionService where
  api_key : String
  verbose : Bool
deriving DecidableEq, Repr

/-- `TranscriptionService.__init__`: `self.api_key = api_key or os.getenv("GENSPARK_API_KEY")`,
then `raise ValueError(...)` when the result is falsy.  The environment is
passed explicitly as `env`. -/
def TranscriptionService.make (api_key : Option String) (verbose : Bool)
    (env : String → Option String) : Except PyExc TranscriptionService :=
  match pyOr api_key (env "GENSPARK_API_KEY") with
  | some s => if s = "" then Except.error (PyExc.valueError apiKeyError)
              else Except.ok ⟨s, verbose⟩
  | none => Except.error (PyExc.valueError apiKeyError)

/-- `AIDriveManager` instance state after `__init__`. -/
structure AIDriveManager where
  api_key : String
  verbose : Bool
deriving DecidableEq, Repr

/-- `AIDriveManager.__init__`: same key resolution and fail-fast rule as
`TranscriptionService.__init__`. -/
def AIDriveManager.make (api_key : Option String) (verbose : Bool)
    (env : String → Option String) : Except PyExc AIDriveManager :=
  match pyOr api_key (env "GENSPARK_API_KEY") with
  | some s => if s = "" then Except.error (PyExc.valueError apiKeyError)
              else Except.ok ⟨s, verbose⟩
  | none => Except.error (PyExc.valueError apiKeyError)

/-! `TranscriptionService` stage bodies.  Each stage is a `try` block whose
only fallible part is the opaque vendor interaction, abstracted by an
`Option PyExc` fault; the `except` clause builds the stage error
dictionary. -/

/-- `TranscriptionService._stage1_rough_transcription`. -/
def _stage1_rough_transcription (fault : Option PyExc) (audio_file_path : String) : PyDict :=
  pyTry (faultOr fault
    [("status", PyVal.pstr "success"),
     ("text", PyVal.pstr ("[第1段階] " ++ osBasename audio_file_path ++ " の粗テキスト化結果")),
     ("confidence", PyVal.pnum "0.85"),
     ("duration", PyVal.pstr "00:05:30")])
    "第1段階エラー: "

/-- `TranscriptionService._stage2_speaker_identification`. -/
def _stage2_speaker_identification (fault : Option PyExc) (text : PyVal) : PyDict :=
  pyTry (faultOr fault
    [("status", PyVal.pstr "success"),
     ("text", PyVal.pstr ("[第2段階] 話者識別済みテキスト:\n" ++ pyFormat text)),
     ("speakers", PyVal.plist [PyVal.pstr "話者A", PyVal.pstr "話者B"]),
     ("segments", PyVal.pint 15)])
    "第2段階エラー: "

/-- `TranscriptionService._stage3_content_integrity`. -/
def _stage3_content_integrity (fault : Option PyExc) (text : PyVal) : PyDict :=
  pyTry (faultOr fault
    [("status", PyVal.pstr "success"),
     ("text", PyVal.pstr ("[第3段階] 完全性確保済みテキスト:\n" ++ pyFormat text)),
     ("integrity_check", PyVal.pstr "passed"),
     ("content_preserved", PyVal.pbool true),
     ("original_length", PyVal.pint ((pyFormat text).length : Int))])
    "第3段階エラー: "

/-- `TranscriptionService._stage4_final_formatting`.  The timestamp
interpolated from `asyncio.get_event_loop().time()` is passed in
pre-rendered as `timeStr`. -/
def _stage4_final_formatting (fault : Option PyExc) (timeStr : String) (text : PyVal) : PyDict :=
  pyTry (faultOr fault
    (let formatted_text :=
      "# 講演録 - 文字起こし結果\n\n## 基本情報\n- 処理日時: " ++ timeStr ++
      "\n- 文字起こし段階: 4段階完了\n- 内容完全性: 保持済み\n\n## 本文\n" ++ pyFormat text ++
      "\n\n## 処理ログ\n- 第1段階: 生音声 → 粗テキスト化 ✓\n- 第2段階: 話者識別・区切り整理 ✓\n- 第3段階: 内容完全性確保 ✓\n- 第4段階: 最終フォーマット調整 ✓\n"
     [("status", PyVal.pstr "success"),
      ("text", PyVal.pstr formatted_text),
      ("format", PyVal.pstr "markdown"),
      ("metadata", PyVal.pdict
        [("stages_completed", PyVal.pint 4),
         ("content_integrity", PyVal.pbool true),
         ("speaker_identified", PyVal.pbool true)])]))
    "第4段階エラー: "

/-- `TranscriptionService._save_transcription_result`: computes the output
path from the audio stem, creates the output directory (`makedirs` may
raise), opens the file for writing (`open` may raise; on success it
truncates the file before the written value is evaluated), then writes
`result["text"]` (a missing key raises `KeyError`); the enclosing `try`
catches any of these exceptions into a save error dictionary. -/
def _save_transcription_result (result : PyDict) (audio_file_path output_folder : String)
    (fs : FS) : PyDict × FS :=
  let audio_name := pathStem audio_file_path
  let output_file := audio_name ++ "_transcription.md"
  let output_path := osPathJoin output_folder output_file
  match FS.makedirs fs output_folder with
  | .error e => (errDict ("保存エラー: " ++ PyExc.toStr e), fs)
  | .ok fs1 =>
    match FS.openWrite fs1 output_path with
    | .error e => (errDict ("保存エラー: " ++ PyExc.toStr e), fs1)
    | .ok fs2 =>
      match dictGet result "text" with
      | .error e => (errDict ("保存エラー: " ++ PyExc.toStr e), fs2)
      | .ok v =>
        let fs3 := FS.setFile fs2 output_path (pyFormat v)
        ([("status", PyVal.pstr "success"),
          ("output_file", PyVal.pstr output_path),
          ("file_size", PyVal.pint (FS.fileSize fs3 output_path)),
          ("message", PyVal.pstr "文字起こし結果が保存されました")], fs3)

/-- Fault oracle for one pipeline run: whether entering the SDK session
raises, and whether each stage body raises. -/
structure Faults where
  sdkEnter : Option PyExc
  stage1 : Option PyExc
  stage2 : Option PyExc
  stage3 : Option PyExc
  stage4 : Option PyExc
deriving DecidableEq, Repr

/-- The fault oracle of a run in which nothing raises. -/
def noFaults : Faults := ⟨none, none, none, none, none⟩

/-- Observable outcome of one `transcribe_audio_4_stages` run: the returned
dictionary, the filesystem afterwards, and the list of stage calls the
orchestrator actually made (`"save"` for `_save_transcription_result`). -/
structure RunOut where
  result : PyDict
  fs : FS
  invoked : List String

/-- `TranscriptionService.transcribe_audio_4_stages`.  The outer
`try/except` is modelled by matching on every raising sub-expression:
entering the SDK session, and each `stageN_result["text"]` lookup (a
missing key raises `KeyError`, caught by the outer handler).  Stage
results land in `results` in insertion order; the success envelope is
built only when all four lookups succeed. -/
def transcribe_audio_4_stages (faults : Faults) (timeStr : String)
    (audio_file_path output_folder : String) (fs : FS) : RunOut :=
  if FS.existsPath fs audio_file_path = false then
    ⟨errDict ("音声ファイルが見つかりません: " ++ audio_file_path), fs, []⟩
  else
    match faults.sdkEnter with
    | some e => ⟨errDict ("文字起こしエラー: " ++ PyExc.toStr e), fs, []⟩
    | none =>
      let stage1_result := _stage1_rough_transcription faults.stage1 audio_file_path
      match dictGet stage1_result "text" with
      | .error e => ⟨errDict ("文字起こしエラー: " ++ PyExc.toStr e), fs, ["stage1"]⟩
      | .ok t1 =>
        let stage2_result := _stage2_speaker_identification faults.stage2 t1
        match dictGet stage2_result "text" with
        | .error e => ⟨errDict ("文字起こしエラー: " ++ PyExc.toStr e), fs, ["stage1", "stage2"]⟩
        | .ok t2 =>
          let stage3_result := _stage3_content_integrity faults.stage3 t2
          match dictGet stage3_result "text" with
          | .error e =>
            ⟨errDict ("文字起こしエラー: " ++ PyExc.toStr e), fs, ["stage1", "stage2", "stage3"]⟩
          | .ok t3 =>
            let stage4_result := _stage4_final_formatting faults.stage4 timeStr t3
            let saved := _save_transcription_result stage4_result audio_file_path output_folder fs
            ⟨[("status", PyVal.pstr "success"),
              ("message", PyVal.pstr "4段階文字起こしが完了しました"),
              ("audio_file", PyVal.pstr audio_file_path),
              ("output_folder", PyVal.pstr output_folder),
              ("stages", PyVal.pdict
                [("stage1", PyVal.pdict stage1_result),
                 ("stage2", PyVal.pdict stage2_result),
                 ("stage3", PyVal.pdict stage3_result),
                 ("stage4", PyVal.pdict stage4_result),
                 ("final", PyVal.pdict saved.1)])],
             saved.2, ["stage1", "stage2", "stage3", "stage4", "save"]⟩

/-! `AIDriveManager` operations (`ai_drive_manager.py`). -/

namespace AIDriveManager

/-- The static folder taxonomy literal in `create_folder_structure`. -/
def folder_structure : PyVal :=
  PyVal.pdict
    [("智の泉", PyVal.pdict
      [("01_講演録", PyVal.pdict
        [("2024", PyVal.pdict []), ("2025", PyVal.pdict [])]),
       ("02_文献資料", PyVal.pdict
        [("論文", PyVal.pdict
          [("経済学", PyVal.pdict []), ("社会学", PyVal.pdict [])]),
         ("メディア記事", PyVal.pdict
          [("新聞", PyVal.pdict []), ("雑誌", PyVal.pdict [])]),
         ("政府文書", PyVal.pdict [])]),
       ("03_生成コンテンツ", PyVal.pdict
        [("講義録", PyVal.pdict
          [("A4まとめ", PyVal.pdict []), ("図解資料", PyVal.pdict [])]),
         ("見解書", PyVal.pdict []),
         ("分析レポート", PyVal.pdict [])]),
       ("04_システム", PyVal.pdict
        [("設定ファイル", PyVal.pdict []), ("ログ", PyVal.pdict [])])])]

/-- `AIDriveManager.create_folder_structure`: pure, no `try` block and no
fallible call in its body. -/
def create_folder_structure : PyDict :=
  [("status", PyVal.pstr "success"),
   ("message", PyVal.pstr "フォルダー構造が定義されました"),
   ("structure", folder_structure)]

/-- `AIDriveManager.upload_file`: missing local file is an ordinary error
return inside the `try`; otherwise the fallible part is entering the SDK
session (fault oracle), and the success envelope echoes folder and size. -/
def upload_file (fault : Option PyExc) (fs : FS) (file_path target_folder : String) : PyDict :=
  pyTry
    (if FS.existsPath fs file_path = false then
      Except.ok (errDict ("ファイルが見つかりません: " ++ file_path))
     else
      match fault with
      | some e => Except.error e
      | none => Except.ok
          [("status", PyVal.pstr "success"),
           ("message", PyVal.pstr ("ファイルがアップロードされました: " ++ file_path)),
           ("target_folder", PyVal.pstr target_folder),
           ("file_size", PyVal.pint (FS.fileSize fs file_path))])
    "アップロードエラー: "

/-- `AIDriveManager.search_documents` (`folder_path` defaults to `None`). -/
def search_documents (fault : Option PyExc) (query : String) (folder_path : Option String) : PyDict :=
  pyTry (faultOr fault
    [("status", PyVal.pstr "success"),
     ("query", PyVal.pstr query),
     ("folder_path", match folder_path with | some s => PyVal.pstr s | none => PyVal.pnone),
     ("results", PyVal.plist [])])
    "検索エラー: "

/-- `AIDriveManager.get_folder_contents`. -/
def get_folder_contents (fault : Option PyExc) (folder_path : String) : PyDict :=
  pyTry (faultOr fault
    [("status", PyVal.pstr "success"),
     ("folder_path", PyVal.pstr folder_path),
     ("contents", PyVal.plist [])])
    "フォルダー内容取得エラー: "

end AIDriveManager

/-! HTTP API layer (`backend/main.py`). -/

/-- `fastapi.HTTPException`: a status code and a detail message.  An
endpoint outcome `Except HTTPException d` is either the JSON response `d`
or an HTTP error raised out of the handler. -/
structure HTTPException where
  status_code : Nat
  detail : String
deriving DecidableEq, Repr

/-- One multipart upload as the handler sees it: raw bytes (modelled as a
list), the client-supplied filename and content type. -/
structure UploadFile where
  data : List Nat
  filename : String
  content_type : String

/-- Values the connector draws from its environment: the generated
`uuid.uuid4()` strings and the `datetime.now().isoformat()` timestamp. -/
structure ConnEnv where
  genId : String
  now : String

namespace GenSparkAIDriveConnector

/-- `GenSparkAIDriveConnector.upload_file_to_ai_drive`: placeholder body,
returns a success envelope built from generated id/time and the input
sizes; its `except` clause is unreachable (the body has no fallible call). -/
def upload_file_to_ai_drive (env : ConnEnv) (file_data : List Nat)
    (filename folder_path : String) : PyDict :=
  let file_id := env.genId
  let temp_url := "https://www.genspark.ai/aidrive/preview/?f_id=" ++ file_id
  [("status", PyVal.pstr "success"),
   ("file_id", PyVal.pstr file_id),
   ("filename", PyVal.pstr filename),
   ("folder_path", PyVal.pstr folder_path),
   ("temp_url", PyVal.pstr temp_url),
   ("upload_time", PyVal.pstr env.now),
   ("file_size", PyVal.pint (file_data.length : Int))]

/-- `GenSparkAIDriveConnector.start_transcription`: placeholder body
returning the job envelope with the four fixed stage names. -/
def start_transcription (env : ConnEnv) (file_id : String) : PyDict :=
  [("status", PyVal.pstr "success"),
   ("job_id", PyVal.pstr env.genId),
   ("file_id", PyVal.pstr file_id),
   ("message", PyVal.pstr "文字起こしを開始しました"),
   ("estimated_time", PyVal.pstr "30-60分"),
   ("stages", PyVal.plist
     [PyVal.pstr "第1段階: 生音声 → 粗テキスト化",
      PyVal.pstr "第2段階: 話者識別・区切り整理",
      PyVal.pstr "第3段階: 内容完全性確保",
      PyVal.pstr "第4段階: 最終フォーマット調整"])]

/-- `GenSparkAIDriveConnector.get_transcription_status`: placeholder body
returning fixed progress data for any `job_id`. -/
def get_transcription_status (job_id : String) : PyDict :=
  [("status", PyVal.pstr "processing"),
   ("job_id", PyVal.pstr job_id),
   ("progress", PyVal.pint 45),
   ("current_stage", PyVal.pstr "第2段階: 話者識別・区切り整理"),
   ("estimated_remaining", PyVal.pstr "20分")]

end GenSparkAIDriveConnector

/-- The `detail` rendering of `result["message"]` on an endpoint's
500-path (unreachable in this source: the connector never returns an
error envelope). -/
def messageDetail (result : PyDict) : String :=
  match dictGet result "message" with
  | .ok v => pyFormat v
  | .error _ => ""

/-- 2GB upload ceiling from `upload_audio`. -/
def max_size : Nat := 2 * 1024 * 1024 * 1024

/-- Content types accepted by `upload_audio`. -/
def allowed_types : List String :=
  ["audio/mpeg", "audio/wav", "audio/mp4", "audio/m4a"]

/-- `upload_audio` endpoint handler.  Returns the endpoint outcome paired
with whether the vendor connector was entered (the `async with
GenSparkAIDriveConnector()` block): `false` means no vendor call and no
network I/O toward the vendor was attempted.  The size check, then the
content-type check, run before the connector block; their
`HTTPException`s pass through the handler's `except HTTPException:
raise`. -/
def upload_audio (env : ConnEnv) (file : UploadFile) (folder_path : String) :
    Except HTTPException PyDict × Bool :=
  let file_data := file.data
  if file_data.length > max_size then
    (Except.error ⟨413, "ファイルサイズが大きすぎます（最大2GB）"⟩, false)
  else if allowed_types.contains file.content_type = false then
    (Except.error ⟨400, "サポートされていないファイル形式です"⟩, false)
  else
    let result := GenSparkAIDriveConnector.upload_file_to_ai_drive env file_data file.filename folder_path
    match dictGet result "status" with
    | .ok (PyVal.pstr "error") => (Except.error ⟨500, messageDetail result⟩, true)
    | _ => (Except.ok result, true)

/-- `start_transcription` endpoint handler. -/
def start_transcription (env : ConnEnv) (file_id : String) : Except HTTPException PyDict :=
  let result := GenSparkAIDriveConnector.start_transcription env file_id
  match dictGet result "status" with
  | .ok (PyVal.pstr "error") => Except.error ⟨500, messageDetail result⟩
  | _ => Except.ok result

/-- `get_transcription_status` endpoint handler. -/
def get_transcription_status (job_id : String) : Except HTTPException PyDict :=
  let result := GenSparkAIDriveConnector.get_transcription_status job_id
  match dictGet result "status" with
  | .ok (PyVal.pstr "error") => Except.error ⟨500, messageDetail result⟩
  | _ => Except.ok result

/-- Substring containment: `small` occurs contiguously inside `big`. -/
def strContains (big small : String) : Prop :=
  ∃ p s, big.data = p ++ small.data ++ s

/-! Shared lemmas. -/

theorem strData_append (a b : String) : (a ++ b).data = a.data ++ b.data := rfl

theorem strContains_append_right (a b : String) : strContains (a ++ b) b :=
  ⟨a.data, [], by simp [strData_append]⟩

theorem strContains_extend_left (a b c : String) (h : strContains b c) :
    strContains (a ++ b) c := by
  obtain ⟨p, s, hps⟩ := h
  exact ⟨a.data ++ p, s, by simp [strData_append, hps]⟩

theorem strContains_extend_right (a b c : String) (h : strContains a c) :
    strContains (a ++ b) c := by
  obtain ⟨p, s, hps⟩ := h
  exact ⟨p, s ++ b.data, by simp [strData_append, hps]⟩

theorem strContains_trans (a b c : String) (hab : strContains a b) (hbc : strContains b c) :
    strContains a c := by
  obtain ⟨p, s, hps⟩ := hab
  obtain ⟨q, r, hqr⟩ := hbc
  exact ⟨p ++ q, r ++ s, by simp [hps, hqr]⟩

/-- C2: for every input text given to `_stage3_content_integrity`, the
stage-3 output text contains the input (the stage-2 output text) in full,
as substring inclusion — the stage only prepends a header, deleting
nothing. -/
theorem stage3_output_contains_input (text : String) :
    ∃ t3, dictGet (_stage3_content_integrity none (PyVal.pstr text)) "text" =
        Except.ok (PyVal.pstr t3) ∧ strContains t3 text :=
  ⟨"[第3段階] 完全性確保済みテキスト:\n" ++ text, rfl,
    strContains_append_right "[第3段階] 完全性確保済みテキスト:\n" text⟩

/-- C3: when the audio path names no existing file,
`transcribe_audio_4_stages` returns the `{status: error}` not-found
envelope, no exception escapes (the function is total and yields an
ordinary result), and the filesystem — in particular the output
directory — is left exactly as it was, with no stage invoked. -/
theorem transcribe_missing_file_pure_error (faults : Faults)
    (timeStr audio_file_path output_folder : String) (fs : FS)
    (h : FS.existsPath fs audio_file_path = false) :
    transcribe_audio_4_stages faults timeStr audio_file_path output_folder fs =
      ⟨errDict ("音声ファイルが見つかりません: " ++ audio_file_path), fs, []⟩ := by
  simp [transcribe_audio_4_stages, h]

theorem transcribe_missing_file_pure_error_witness :
    FS.existsPath ⟨["out"], []⟩ "missing.mp3" = false ∧
    transcribe_audio_4_stages noFaults "0.0" "missing.mp3" "out" ⟨["out"], []⟩ =
      ⟨errDict ("音声ファイルが見つかりません: missing.mp3"), ⟨["out"], []⟩, []⟩ :=
  ⟨by decide,
   transcribe_missing_file_pure_error noFaults "0.0" "missing.mp3" "out" ⟨["out"], []⟩ (by decide)⟩

/-- C8: for every `job_id`, the `/api/transcription-status/{job_id}`
endpoint returns the success shape `{status, job_id, progress,
current_stage, estimated_remaining}` whose progress is the fixed value 45
(within 0–100) and whose current stage is always the stage-2 name,
independent of the supplied `job_id`. -/
theorem transcription_status_fixed_shape (job_id : String) :
    get_transcription_status job_id =
      Except.ok
        [("status", PyVal.pstr "processing"),
         ("job_id", PyVal.pstr job_id),
         ("progress", PyVal.pint 45),
         ("current_stage", PyVal.pstr "第2段階: 話者識別・区切り整理"),
         ("estimated_remaining", PyVal.pstr "20分")] ∧
    (0 : Int) ≤ 45 ∧ (45 : Int) ≤ 100 :=
  ⟨rfl, by decide, by decide⟩

/-- C1 counterexample: a run in which stage 1 returns a `{status: error}`
result, yet stage 2 is never invoked — the orchestrator's
`stage1_result["text"]` lookup raises `KeyError`, which the outer handler
converts to a global error envelope, so the pipeline short-circuits
instead of feeding the error payload onward. -/
theorem stage_error_feeds_next_stage_cex :
    dictGet (_stage1_rough_transcription (some (PyExc.other "boom")) "talk.mp3") "status" =
      Except.ok (PyVal.pstr "error") ∧
    (transcribe_audio_4_stages ⟨none, some (PyExc.other "boom"), none, none, none⟩ "0.0"
        "talk.mp3" "out" ⟨[], [("talk.mp3", "RIFF")]⟩).invoked = ["stage1"] ∧
    "stage2" ∉ (transcribe_audio_4_stages ⟨none, some (PyExc.other "boom"), none, none, none⟩ "0.0"
        "talk.mp3" "out" ⟨[], [("talk.mp3", "RIFF")]⟩).invoked :=
  ⟨rfl, rfl, by decide⟩

/-- C1 (amended): each stage's failure is caught in the stage and becomes
a `{status: error}` result, but a failed stage 1, 2 or 3 halts the
orchestration — its error result lacks the `"text"` key, the lookup
raises `KeyError`, and the outer handler returns a global error envelope
without invoking stage n+1 (the filesystem untouched).  Only a failed
stage 4 feeds its error payload onward: the save step is still invoked
and the run reports overall success. -/
theorem transcribe_halts_on_stage_error (e : PyExc) (f2 f3 f4 : Option PyExc)
    (timeStr audio_file_path output_folder : String) (fs : FS)
    (h : FS.existsPath fs audio_file_path = true) :
    transcribe_audio_4_stages ⟨none, some e, f2, f3, f4⟩ timeStr audio_file_path output_folder fs =
      ⟨errDict ("文字起こしエラー: " ++ sq ++ "text" ++ sq), fs, ["stage1"]⟩ ∧
    transcribe_audio_4_stages ⟨none, none, some e, f3, f4⟩ timeStr audio_file_path output_folder fs =
      ⟨errDict ("文字起こしエラー: " ++ sq ++ "text" ++ sq), fs, ["stage1", "stage2"]⟩ ∧
    transcribe_audio_4_stages ⟨none, none, none, some e, f4⟩ timeStr audio_file_path output_folder fs =
      ⟨errDict ("文字起こしエラー: " ++ sq ++ "text" ++ sq), fs, ["stage1", "stage2", "stage3"]⟩ ∧
    (transcribe_audio_4_stages ⟨none, none, none, none, some e⟩ timeStr audio_file_path output_folder fs).invoked =
      ["stage1", "stage2", "stage3", "stage4", "save"] ∧
    dictGet (transcribe_audio_4_stages ⟨none, none, none, none, some e⟩ timeStr audio_file_path
        output_folder fs).result "status" = Except.ok (PyVal.pstr "success") := by
  refine ⟨?_, ?_, ?_, ?_, ?_⟩ <;> simp [transcribe_audio_4_stages, h] <;> rfl

theorem transcribe_halts_on_stage_error_witness :
    FS.existsPath ⟨[], [("talk.mp3", "RIFF")]⟩ "talk.mp3" = true ∧
    (transcribe_audio_4_stages ⟨none, some (PyExc.other "x"), none, none, none⟩ "0.0"
        "talk.mp3" "out" ⟨[], [("talk.mp3", "RIFF")]⟩ =
      ⟨errDict ("文字起こしエラー: " ++ sq ++ "text" ++ sq), ⟨[], [("talk.mp3", "RIFF")]⟩, ["stage1"]⟩ ∧
    transcribe_audio_4_stages ⟨none, none, some (PyExc.other "x"), none, none⟩ "0.0"
        "talk.mp3" "out" ⟨[], [("talk.mp3", "RIFF")]⟩ =
      ⟨errDict ("文字起こしエラー: " ++ sq ++ "text" ++ sq), ⟨[], [("talk.mp3", "RIFF")]⟩, ["stage1", "stage2"]⟩ ∧
    transcribe_audio_4_stages ⟨none, none, none, some (PyExc.other "x"), none⟩ "0.0"
        "talk.mp3" "out" ⟨[], [("talk.mp3", "RIFF")]⟩ =
      ⟨errDict ("文字起こしエラー: " ++ sq ++ "text" ++ sq), ⟨[], [("talk.mp3", "RIFF")]⟩, ["stage1", "stage2", "stage3"]⟩ ∧
    (transcribe_audio_4_stages ⟨none, none, none, none, some (PyExc.other "x")⟩ "0.0"
        "talk.mp3" "out" ⟨[], [("talk.mp3", "RIFF")]⟩).invoked =
      ["stage1", "stage2", "stage3", "stage4", "save"] ∧
    dictGet (transcribe_audio_4_stages ⟨none, none, none, none, some (PyExc.other "x")⟩ "0.0"
        "talk.mp3" "out" ⟨[], [("talk.mp3", "RIFF")]⟩).result "status" = Except.ok (PyVal.pstr "success")) :=
  ⟨by decide,
   transcribe_halts_on_stage_error (PyExc.other "x") none none none "0.0"
     "talk.mp3" "out" ⟨[], [("talk.mp3", "RIFF")]⟩ (by decide)⟩

/-- C4: an upload whose data exceeds 2GB is rejected with 413, and one
whose content type is outside the allowed set is rejected with 400, in
both cases before the vendor connector is entered (the Boolean component
records whether any vendor call was attempted). -/
theorem upload_audio_rejects_before_vendor (env : ConnEnv) (file : UploadFile)
    (folder_path : String) :
    (file.data.length > max_size →
      upload_audio env file folder_path =
        (Except.error ⟨413, "ファイルサイズが大きすぎます（最大2GB）"⟩, false)) ∧
    (file.data.length ≤ max_size → allowed_types.contains file.content_type = false →
      upload_audio env file folder_path =
        (Except.error ⟨400, "サポートされていないファイル形式です"⟩, false)) := by
  constructor
  · intro h
    simp [upload_audio, h]
  · intro h1 h2
    have hnm : ¬ file.content_type ∈ allowed_types := by simpa using h2
    simp [upload_audio, hnm, Nat.not_lt.mpr h1]

theorem upload_audio_rejects_before_vendor_witness :
    ((List.replicate (max_size + 1) 0).length > max_size ∧
      upload_audio ⟨"f-1", "2025-01-01T00:00:00"⟩
          ⟨List.replicate (max_size + 1) 0, "talk.mp3", "audio/mpeg"⟩ "智の泉/01_講演録" =
        (Except.error ⟨413, "ファイルサイズが大きすぎます（最大2GB）"⟩, false)) ∧
    (([] : List Nat).length ≤ max_size ∧ allowed_types.contains "text/plain" = false ∧
      upload_audio ⟨"f-1", "2025-01-01T00:00:00"⟩
          ⟨[], "notes.txt", "text/plain"⟩ "智の泉/01_講演録" =
        (Except.error ⟨400, "サポートされていないファイル形式です"⟩, false)) := by
  constructor
  · exact ⟨by simp, (upload_audio_rejects_before_vendor _ _ _).1 (by simp)⟩
  · exact ⟨by simp, rfl, (upload_audio_rejects_before_vendor _ _ _).2 (by simp) rfl⟩

/-- C10: the size check runs before the content-type check, so a request
that both exceeds 2GB and carries an unsupported content type is rejected
with 413 (never 400), still without any vendor call. -/
theorem upload_audio_size_check_first (env : ConnEnv) (file : UploadFile)
    (folder_path : String) (h1 : file.data.length > max_size)
    (_h2 : allowed_types.contains file.content_type = false) :
    upload_audio env file folder_path =
      (Except.error ⟨413, "ファイルサイズが大きすぎます（最大2GB）"⟩, false) := by
  simp [upload_audio, h1]

theorem upload_audio_size_check_first_witness :
    (List.replicate (max_size + 1) 0).length > max_size ∧
    allowed_types.contains "text/plain" = false ∧
    upload_audio ⟨"f-1", "2025-01-01T00:00:00"⟩
        ⟨List.replicate (max_size + 1) 0, "huge.bin", "text/plain"⟩ "智の泉/01_講演録" =
      (Except.error ⟨413, "ファイルサイズが大きすぎます（最大2GB）"⟩, false) :=
  ⟨by simp, rfl,
   upload_audio_size_check_first ⟨"f-1", "2025-01-01T00:00:00"⟩
     ⟨List.replicate (max_size + 1) 0, "huge.bin", "text/plain"⟩ "智の泉/01_講演録"
     (by simp) rfl⟩

/-- C5: constructing `TranscriptionService` or `AIDriveManager` with no
key passed and no `GENSPARK_API_KEY` in the environment fails fast with
the configuration `ValueError`; with a (nonempty) key present — passed
directly or through the environment — construction succeeds and stores
the key. -/
theorem constructors_require_api_key (verbose : Bool) (k : String)
    (env envk : String → Option String)
    (henv : env "GENSPARK_API_KEY" = none) (hk : k ≠ "")
    (henvk : envk "GENSPARK_API_KEY" = some k) :
    TranscriptionService.make none verbose env = Except.error (PyExc.valueError apiKeyError) ∧
    AIDriveManager.make none verbose env = Except.error (PyExc.valueError apiKeyError) ∧
    TranscriptionService.make (some k) verbose env = Except.ok ⟨k, verbose⟩ ∧
    AIDriveManager.make (some k) verbose env = Except.ok ⟨k, verbose⟩ ∧
    TranscriptionService.make none verbose envk = Except.ok ⟨k, verbose⟩ ∧
    AIDriveManager.make none verbose envk = Except.ok ⟨k, verbose⟩ := by
  refine ⟨?_, ?_, ?_, ?_, ?_, ?_⟩ <;>
    simp [TranscriptionService.make, AIDriveManager.make, pyOr, henv, henvk, hk]

theorem constructors_require_api_key_witness :
    ((fun _ => none) "GENSPARK_API_KEY" = (none : Option String)) ∧ "sk-test" ≠ "" ∧
    ((fun s => if s = "GENSPARK_API_KEY" then some "sk-test" else none) "GENSPARK_API_KEY" =
      some "sk-test") ∧
    (TranscriptionService.make none true (fun _ => none) =
        Except.error (PyExc.valueError apiKeyError) ∧
      AIDriveManager.make none true (fun _ => none) =
        Except.error (PyExc.valueError apiKeyError) ∧
      TranscriptionService.make (some "sk-test") true (fun _ => none) =
        Except.ok ⟨"sk-test", true⟩ ∧
      AIDriveManager.make (some "sk-test") true (fun _ => none) =
        Except.ok ⟨"sk-test", true⟩ ∧
      TranscriptionService.make none true
          (fun s => if s = "GENSPARK_API_KEY" then some "sk-test" else none) =
        Except.ok ⟨"sk-test", true⟩ ∧
      AIDriveManager.make none true
          (fun s => if s = "GENSPARK_API_KEY" then some "sk-test" else none) =
        Except.ok ⟨"sk-test", true⟩) :=
  ⟨rfl, by decide, by simp,
   constructors_require_api_key true "sk-test" (fun _ => none)
     (fun s => if s = "GENSPARK_API_KEY" then some "sk-test" else none)
     rfl (by decide) (by simp)⟩

/-- C6: all four `AIDriveManager` operations return the uniform
`{status: success|error}` envelope, and whenever the status is `error` a
`message` key is present; in particular a raising body (the fault cases)
is always caught and converted to `{status: error, message}` — the
operations are total and never propagate an exception. -/
theorem aidrive_uniform_envelopes (fault : Option PyExc) (e : PyExc) (fs : FS)
    (file_path target_folder query gf : String) (folder_path : Option String) :
    dictGet AIDriveManager.create_folder_structure "status" = Except.ok (PyVal.pstr "success") ∧
    (dictGet (AIDriveManager.upload_file fault fs file_path target_folder) "status" =
        Except.ok (PyVal.pstr "success") ∨
      (dictGet (AIDriveManager.upload_file fault fs file_path target_folder) "status" =
          Except.ok (PyVal.pstr "error") ∧
        ∃ m, dictGet (AIDriveManager.upload_file fault fs file_path target_folder) "message" =
          Except.ok (PyVal.pstr m))) ∧
    (dictGet (AIDriveManager.search_documents fault query folder_path) "status" =
        Except.ok (PyVal.pstr "success") ∨
      (dictGet (AIDriveManager.search_documents fault query folder_path) "status" =
          Except.ok (PyVal.pstr "error") ∧
        ∃ m, dictGet (AIDriveManager.search_documents fault query folder_path) "message" =
          Except.ok (PyVal.pstr m))) ∧
    (dictGet (AIDriveManager.get_folder_contents fault gf) "status" =
        Except.ok (PyVal.pstr "success") ∨
      (dictGet (AIDriveManager.get_folder_contents fault gf) "status" =
          Except.ok (PyVal.pstr "error") ∧
        ∃ m, dictGet (AIDriveManager.get_folder_contents fault gf) "message" =
          Except.ok (PyVal.pstr m))) ∧
    dictGet (AIDriveManager.upload_file (some e) fs file_path target_folder) "status" =
      Except.ok (PyVal.pstr "error") ∧
    dictGet (AIDriveManager.search_documents (some e) query folder_path) "message" =
      Except.ok (PyVal.pstr ("検索エラー: " ++ PyExc.toStr e)) ∧
    dictGet (AIDriveManager.get_folder_contents (some e) gf) "message" =
      Except.ok (PyVal.pstr ("フォルダー内容取得エラー: " ++ PyExc.toStr e)) := by
  refine ⟨rfl, ?_, ?_, ?_, ?_, ?_, ?_⟩
  · cases hex : FS.existsPath fs file_path <;> cases fault <;>
      simp [AIDriveManager.upload_file, pyTry, hex, errDict, dictGet, List.lookup]
  · cases fault <;>
      simp [AIDriveManager.search_documents, pyTry, faultOr, errDict, dictGet, List.lookup]
  · cases fault <;>
      simp [AIDriveManager.get_folder_contents, pyTry, faultOr, errDict, dictGet, List.lookup]
  · cases hex : FS.existsPath fs file_path <;>
      simp [AIDriveManager.upload_file, pyTry, hex, errDict, dictGet, List.lookup]
  · rfl
  · rfl

theorem pathNameL_no_slash (l : List Char) (c : Char) (hc : c ∈ pathNameL l) : c ≠ '/' := by
  unfold pathNameL afterLastSlash at hc
  rw [List.mem_reverse] at hc
  have h2 := List.mem_takeWhile_imp hc
  simpa using h2

theorem pathStemL_no_slash (l : List Char) (c : Char) (hc : c ∈ pathStemL l) : c ≠ '/' := by
  simp only [pathStemL] at hc
  split at hc
  · split at hc
    · exact pathNameL_no_slash l c (List.mem_of_mem_take hc)
    · exact pathNameL_no_slash l c hc
  · exact pathNameL_no_slash l c hc

theorem stem_md_head_ne_slash (audio_file_path : String) :
    (pathStem audio_file_path ++ "_transcription.md").data.head? ≠ some '/' := by
  rw [strData_append]
  cases hst : (pathStem audio_file_path).data with
  | nil => decide
  | cons a as =>
    simp only [List.cons_append, List.head?_cons, ne_eq, Option.some.injEq]
    intro ha
    have hmem : a ∈ pathStemL audio_file_path.data := by
      have hd : (pathStem audio_file_path).data = pathStemL audio_file_path.data := rfl
      rw [← hd, hst]
      exact List.mem_cons_self a as
    exact pathStemL_no_slash audio_file_path.data a hmem ha

theorem osPathJoin_stem (folder audio_file_path : String)
    (hne : folder ≠ "") (hsl : folder.data.getLast? ≠ some '/') :
    osPathJoin folder (pathStem audio_file_path ++ "_transcription.md") =
      folder ++ "/" ++ (pathStem audio_file_path ++ "_transcription.md") := by
  unfold osPathJoin
  rw [if_neg (stem_md_head_ne_slash audio_file_path), if_neg hne, if_neg hsl]

theorem slash_append_ne (folder x : String) : folder ++ "/" ++ x ≠ folder := by
  intro hcontra
  have hlen : (folder ++ "/" ++ x).length = folder.length := by rw [hcontra]
  rw [String.length_append, String.length_append] at hlen
  have h1 : ("/" : String).length = 1 := rfl
  rw [h1] at hlen
  omega

theorem osPathJoin_stem_ne (folder audio_file_path : String) (hne : folder ≠ "") :
    osPathJoin folder (pathStem audio_file_path ++ "_transcription.md") ≠ folder := by
  unfold osPathJoin
  rw [if_neg (stem_md_head_ne_slash audio_file_path), if_neg hne]
  by_cases hl : folder.data.getLast? = some '/'
  · rw [if_pos hl]
    intro hcontra
    have hlen : (folder ++ (pathStem audio_file_path ++ "_transcription.md")).length =
        folder.length := by rw [hcontra]
    rw [String.length_append, String.length_append] at hlen
    have h17 : ("_transcription.md" : String).length = 17 := rfl
    rw [h17] at hlen
    omega
  · rw [if_neg hl]
    exact slash_append_ne folder _

theorem lookup_filter_none {β : Type} (k : String) (l : List (String × β))
    (f : String × β → Bool) (h : List.lookup k l = none) :
    List.lookup k (List.filter f l) = none := by
  induction l with
  | nil => simp
  | cons a l ih =>
    obtain ⟨ka, va⟩ := a
    cases hk : (k == ka) with
    | true =>
      exfalso
      simp [List.lookup, hk] at h
    | false =>
      have hl : List.lookup k l = none := by simpa [List.lookup, hk] using h
      by_cases hf : f (ka, va) = true <;>
        simp [List.filter_cons, hf, List.lookup, hk, ih hl]

/-- On a state where the output folder is not an existing regular file
and the output path is not an existing directory, the save step succeeds:
it returns the success envelope naming the joined output path, creates
the folder if absent, and places the written text at that path. -/
theorem save_ok (r : PyDict) (t : String) (audio_file_path output_folder : String) (fs : FS)
    (h : dictGet r "text" = Except.ok (PyVal.pstr t))
    (hne : output_folder ≠ "")
    (hfile : List.lookup output_folder fs.files = none)
    (hdir : fs.dirs.contains
      (osPathJoin output_folder (pathStem audio_file_path ++ "_transcription.md")) = false) :
    ∃ d,
      _save_transcription_result r audio_file_path output_folder fs =
        ([("status", PyVal.pstr "success"),
          ("output_file", PyVal.pstr
            (osPathJoin output_folder (pathStem audio_file_path ++ "_transcription.md"))),
          ("file_size", PyVal.pint d),
          ("message", PyVal.pstr "文字起こし結果が保存されました")],
         ⟨(if output_folder ∈ fs.dirs then fs.dirs else output_folder :: fs.dirs),
          (osPathJoin output_folder (pathStem audio_file_path ++ "_transcription.md"), t) ::
            List.filter
              (fun q => q.1 != osPathJoin output_folder (pathStem audio_file_path ++ "_transcription.md"))
              fs.files⟩) := by
  refine ⟨(t.utf8ByteSize : Int), ?_⟩
  have hpne : osPathJoin output_folder (pathStem audio_file_path ++ "_transcription.md") ≠
      output_folder := osPathJoin_stem_ne _ _ hne
  have hdirm : osPathJoin output_folder (pathStem audio_file_path ++ "_transcription.md") ∉
      fs.dirs := by simpa using hdir
  by_cases hc : output_folder ∈ fs.dirs <;>
    simp [_save_transcription_result, FS.makedirs, FS.openWrite, FS.setFile, FS.fileSize,
      hne, hfile, hdirm, hc, hpne, h, List.lookup, List.filter_filter, pyFormat]

/-- C7: persistence naming is deterministic and idempotent — for a
non-degenerate output folder (nonempty, no trailing slash, not occupied
by a regular file) and an output path not occupied by a directory, the
result is written to `<outputFolder>/<audio-stem>_transcription.md`;
directory creation is safe to repeat (`makedirs` succeeds again on its
own result, unchanged); and a second run on the same audio/folder writes
to the identical path, overwriting the previous content. -/
theorem save_deterministic_idempotent_naming (r1 r2 : PyDict) (t1 t2 : String)
    (audio_file_path output_folder : String) (fs : FS)
    (h1 : dictGet r1 "text" = Except.ok (PyVal.pstr t1))
    (h2 : dictGet r2 "text" = Except.ok (PyVal.pstr t2))
    (hne : output_folder ≠ "") (hsl : output_folder.data.getLast? ≠ some '/')
    (hfile : List.lookup output_folder fs.files = none)
    (hdir : fs.dirs.contains
      (output_folder ++ "/" ++ (pathStem audio_file_path ++ "_transcription.md")) = false) :
    (∃ fs1, FS.makedirs fs output_folder = Except.ok fs1 ∧
      FS.makedirs fs1 output_folder = Except.ok fs1) ∧
    dictGet (_save_transcription_result r1 audio_file_path output_folder fs).1 "output_file" =
      Except.ok (PyVal.pstr (output_folder ++ "/" ++ (pathStem audio_file_path ++ "_transcription.md"))) ∧
    List.lookup (output_folder ++ "/" ++ (pathStem audio_file_path ++ "_transcription.md"))
      (_save_transcription_result r1 audio_file_path output_folder fs).2.files = some t1 ∧
    dictGet (_save_transcription_result r2 audio_file_path output_folder
        (_save_transcription_result r1 audio_file_path output_folder fs).2).1 "output_file" =
      Except.ok (PyVal.pstr (output_folder ++ "/" ++ (pathStem audio_file_path ++ "_transcription.md"))) ∧
    List.lookup (output_folder ++ "/" ++ (pathStem audio_file_path ++ "_transcription.md"))
      (_save_transcription_result r2 audio_file_path output_folder
        (_save_transcription_result r1 audio_file_path output_folder fs).2).2.files = some t2 := by
  have hjoin := osPathJoin_stem output_folder audio_file_path hne hsl
  have hdir' : fs.dirs.contains
      (osPathJoin output_folder (pathStem audio_file_path ++ "_transcription.md")) = false := by
    rw [hjoin]; exact hdir
  have hpne : osPathJoin output_folder (pathStem audio_file_path ++ "_transcription.md") ≠
      output_folder := osPathJoin_stem_ne _ _ hne
  obtain ⟨d1, hrun1⟩ := save_ok r1 t1 audio_file_path output_folder fs h1 hne hfile hdir'
  have hfile2 : List.lookup output_folder
      (_save_transcription_result r1 audio_file_path output_folder fs).2.files = none := by
    rw [hrun1]
    have hbne : (output_folder ==
        osPathJoin output_folder (pathStem audio_file_path ++ "_transcription.md")) = false := by
      simp
      exact Ne.symm hpne
    simp [List.lookup, hbne, lookup_filter_none _ _ _ hfile]
  have hdir2 : (_save_transcription_result r1 audio_file_path output_folder fs).2.dirs.contains
      (osPathJoin output_folder (pathStem audio_file_path ++ "_transcription.md")) = false := by
    rw [hrun1]
    by_cases hc : output_folder ∈ fs.dirs <;> simp [hc, hpne] <;> simpa using hdir'
  obtain ⟨d2, hrun2⟩ := save_ok r2 t2 audio_file_path output_folder _ h2 hne hfile2 hdir2
  refine ⟨⟨if output_folder ∈ fs.dirs then fs else ⟨output_folder :: fs.dirs, fs.files⟩,
    ?_, ?_⟩, ?_, ?_, ?_, ?_⟩
  · by_cases hc : output_folder ∈ fs.dirs <;> simp [FS.makedirs, hne, hfile, hc]
  · by_cases hc : output_folder ∈ fs.dirs <;> simp [FS.makedirs, hne, hfile, hc]
  · rw [hrun1, hjoin]
    simp [dictGet, List.lookup]
  · rw [hrun1, ← hjoin]
    simp [List.lookup]
  · rw [hrun2, hjoin]
    simp [dictGet, List.lookup]
  · rw [hrun2, ← hjoin]
    simp [List.lookup]

theorem save_deterministic_idempotent_naming_witness :
    dictGet [("text", PyVal.pstr "hello")] "text" = Except.ok (PyVal.pstr "hello") ∧
    dictGet [("text", PyVal.pstr "world")] "text" = Except.ok (PyVal.pstr "world") ∧
    ("out" : String) ≠ "" ∧ ("out" : String).data.getLast? ≠ some '/' ∧
    List.lookup "out" (FS.mk [] []).files = none ∧
    (FS.mk [] []).dirs.contains ("out" ++ "/" ++ (pathStem "talk.mp3" ++ "_transcription.md")) = false ∧
    ((∃ fs1, FS.makedirs ⟨[], []⟩ "out" = Except.ok fs1 ∧
       FS.makedirs fs1 "out" = Except.ok fs1) ∧
     dictGet (_save_transcription_result [("text", PyVal.pstr "hello")] "talk.mp3" "out" ⟨[], []⟩).1 "output_file" =
       Except.ok (PyVal.pstr ("out" ++ "/" ++ (pathStem "talk.mp3" ++ "_transcription.md"))) ∧
     List.lookup ("out" ++ "/" ++ (pathStem "talk.mp3" ++ "_transcription.md"))
       (_save_transcription_result [("text", PyVal.pstr "hello")] "talk.mp3" "out" ⟨[], []⟩).2.files =
       some "hello" ∧
     dictGet (_save_transcription_result [("text", PyVal.pstr "world")] "talk.mp3" "out"
         (_save_transcription_result [("text", PyVal.pstr "hello")] "talk.mp3" "out" ⟨[], []⟩).2).1 "output_file" =
       Except.ok (PyVal.pstr ("out" ++ "/" ++ (pathStem "talk.mp3" ++ "_transcription.md"))) ∧
     List.lookup ("out" ++ "/" ++ (pathStem "talk.mp3" ++ "_transcription.md"))
       (_save_transcription_result [("text", PyVal.pstr "world")] "talk.mp3" "out"
         (_save_transcription_result [("text", PyVal.pstr "hello")] "talk.mp3" "out" ⟨[], []⟩).2).2.files =
       some "world") :=
  ⟨rfl, rfl, by decide, by decide, rfl, rfl,
   save_deterministic_idempotent_naming [("text", PyVal.pstr "hello")] [("text", PyVal.pstr "world")]
     "hello" "world" "talk.mp3" "out" ⟨[], []⟩ rfl rfl (by decide) (by decide) rfl rfl⟩


/-- C9: whole-chain content containment — on a successful (fault-free)
run whose output folder and path are writable (folder nonempty, not an
existing regular file; output path not an existing directory, so the
save step does not raise), each stage's output text contains its input
text as a substring, the run reports success, and the persisted markdown
(the file written at the computed output path) is the stage-4 text,
which contains the stage-3, stage-2 and stage-1 texts in full. -/
theorem pipeline_chain_containment (timeStr audio_file_path output_folder : String) (fs : FS)
    (h : FS.existsPath fs audio_file_path = true)
    (hne : output_folder ≠ "")
    (hfile : List.lookup output_folder fs.files = none)
    (hdir : fs.dirs.contains
      (osPathJoin output_folder (pathStem audio_file_path ++ "_transcription.md")) = false) :
    ∃ t1 t2 t3 t4,
      dictGet (_stage1_rough_transcription none audio_file_path) "text" = Except.ok (PyVal.pstr t1) ∧
      dictGet (_stage2_speaker_identification none (PyVal.pstr t1)) "text" = Except.ok (PyVal.pstr t2) ∧
      dictGet (_stage3_content_integrity none (PyVal.pstr t2)) "text" = Except.ok (PyVal.pstr t3) ∧
      dictGet (_stage4_final_formatting none timeStr (PyVal.pstr t3)) "text" = Except.ok (PyVal.pstr t4) ∧
      strContains t2 t1 ∧ strContains t3 t2 ∧ strContains t4 t3 ∧
      dictGet (transcribe_audio_4_stages noFaults timeStr audio_file_path output_folder fs).result "status" =
        Except.ok (PyVal.pstr "success") ∧
      List.lookup (osPathJoin output_folder (pathStem audio_file_path ++ "_transcription.md"))
        (transcribe_audio_4_stages noFaults timeStr audio_file_path output_folder fs).fs.files = some t4 ∧
      strContains t4 t2 ∧ strContains t4 t1 := by
  refine ⟨_, _, _, _, rfl, rfl, rfl, rfl, ?_, ?_, ?_, ?_, ?_, ?_, ?_⟩
  · exact strContains_append_right _ _
  · exact strContains_append_right _ _
  · exact strContains_extend_right _ _ _ (strContains_append_right _ _)
  · simp [transcribe_audio_4_stages, h, noFaults, dictGet, List.lookup]
  · have hpne : osPathJoin output_folder (pathStem audio_file_path ++ "_transcription.md") ≠
        output_folder := osPathJoin_stem_ne _ _ hne
    have hdirm : osPathJoin output_folder (pathStem audio_file_path ++ "_transcription.md") ∉
        fs.dirs := by simpa using hdir
    by_cases hc : output_folder ∈ fs.dirs <;>
      simp [transcribe_audio_4_stages, h, noFaults, _save_transcription_result, FS.makedirs,
        FS.openWrite, FS.setFile, dictGet, List.lookup, pyFormat, hne, hfile, hdirm, hc, hpne]
  · exact strContains_trans _ _ _
      (strContains_extend_right _ _ _ (strContains_append_right _ _))
      (strContains_append_right _ _)
  · exact strContains_trans _ _ _
      (strContains_trans _ _ _
        (strContains_extend_right _ _ _ (strContains_append_right _ _))
        (strContains_append_right _ _))
      (strContains_append_right _ _)

theorem pipeline_chain_containment_witness :
    FS.existsPath ⟨[], [("talk.mp3", "RIFF")]⟩ "talk.mp3" = true ∧
    ("out" : String) ≠ "" ∧
    List.lookup "out" (FS.mk [] [("talk.mp3", "RIFF")]).files = none ∧
    (FS.mk [] [("talk.mp3", "RIFF")]).dirs.contains
      (osPathJoin "out" (pathStem "talk.mp3" ++ "_transcription.md")) = false ∧
    (∃ t1 t2 t3 t4,
      dictGet (_stage1_rough_transcription none "talk.mp3") "text" = Except.ok (PyVal.pstr t1) ∧
      dictGet (_stage2_speaker_identification none (PyVal.pstr t1)) "text" = Except.ok (PyVal.pstr t2) ∧
      dictGet (_stage3_content_integrity none (PyVal.pstr t2)) "text" = Except.ok (PyVal.pstr t3) ∧
      dictGet (_stage4_final_formatting none "12345.0" (PyVal.pstr t3)) "text" = Except.ok (PyVal.pstr t4) ∧
      strContains t2 t1 ∧ strContains t3 t2 ∧ strContains t4 t3 ∧
      dictGet (transcribe_audio_4_stages noFaults "12345.0" "talk.mp3" "out"
          ⟨[], [("talk.mp3", "RIFF")]⟩).result "status" = Except.ok (PyVal.pstr "success") ∧
      List.lookup (osPathJoin "out" (pathStem "talk.mp3" ++ "_transcription.md"))
        (transcribe_audio_4_stages noFaults "12345.0" "talk.mp3" "out"
          ⟨[], [("talk.mp3", "RIFF")]⟩).fs.files = some t4 ∧
      strContains t4 t2 ∧ strContains t4 t1) :=
  ⟨by decide, by decide, rfl, rfl,
   pipeline_chain_containment "12345.0" "talk.mp3" "out" ⟨[], [("talk.mp3", "RIFF")]⟩
     (by decide) (by decide) rfl rfl⟩

end Darwin




